import Mathlib

/-!
# Verification of the dudebro-hosting control plane (src/app.py)

A shallow embedding of the orchestration and live-control subsystem of the
multi-tenant game-server hosting application: the authorization gate, the
status broadcast bridge, the quota check, the status query, the RCON
executor wrapper, the configuration merge, the async restart pipeline, and
the HTTP-method gating of the lifecycle routes.

External collaborators (the SQL registry, the container runtime, the form
layer) are passed in as explicit parameters: a database is a list of user
rows, the runtime's answer to a status query is a string, a form is a
partial map from field names to submitted values.
-/

namespace Dudebro

/-- A row of the `Containers` table, as far as the control plane reads it:
the subdomain key, the RCON port, and the storage uuid. -/
structure ContainerRow where
  subdomain : String
  rcon_port : Nat
  uuid : String
deriving Repr, DecidableEq

/-- A row of the `Users` table with its `containers` relationship:
identity, owned containers, and the configured container quota. -/
structure UserRow where
  id : Nat
  containers : List ContainerRow
  container_limit : Nat
deriving Repr, DecidableEq

/-- `Users.query.filter_by(id=id).first()`: the first row with the given id,
`none` when no such user exists. -/
def findUser (db : List UserRow) (uid : Nat) : Option UserRow :=
  db.find? (fun u => u.id == uid)

/-- The `for container in results` loop body of `user_can_access`
(src/app.py lines 82-87): return `True` on the first container whose
subdomain equals the requested one, `False` after the loop.  An empty
`results` list is falsy in Python, which skips the loop and also yields
`False`, so the loop alone is a faithful rendering. -/
def containsSubdomain : List ContainerRow → String → Bool
  | [], _ => false
  | c :: rest, s => if s == c.subdomain then true else containsSubdomain rest s

/-- `user_can_access(id, subdomain)` (src/app.py lines 79-87).
`Users.query.filter_by(id=id).first().containers` raises `AttributeError`
when the user row is absent; that exceptional path is `none`. -/
def user_can_access (db : List UserRow) (uid : Nat) (subdomain : String) :
    Option Bool :=
  match findUser db uid with
  | none => none
  | some u => some (containsSubdomain u.containers subdomain)

/-- The value of `kwargs.get("subdomain", False)` inside the `authorized`
decorator: either the route was invoked without a subdomain keyword
(the default `False`) or with a string. -/
inductive SubdomainArg where
  | absent
  | present (s : String)
deriving Repr, DecidableEq

/-- Python truthiness test `if not subdomain:` applied to
`kwargs.get("subdomain", False)`: `False` and the empty string are falsy. -/
def subdomainFalsy : SubdomainArg → Bool
  | .absent => true
  | .present s => s == ""

/-- Outcome of a request that passed through the `authorized` decorator
(src/app.py lines 138-158), with `α` the result type of the wrapped view
function. -/
inductive Outcome (α : Type) where
  | redirectLogin
  | denialRedirectHome
  | serverError
  | body (a : α)
deriving Repr, DecidableEq

/-- The `authorized` decorator (src/app.py lines 138-158): redirect to
login when unauthenticated; run the view when no (truthy) subdomain
keyword is present; otherwise flash "Sorry, you cannot access that page"
and redirect home unless `user_can_access` holds.  An `AttributeError`
escaping `user_can_access` (current user row missing from the registry)
is a server error. -/
def authorizedOutcome (db : List UserRow) (authenticated : Bool) (uid : Nat)
    (sub : SubdomainArg) (f : α) : Outcome α :=
  if !authenticated then .redirectLogin
  else if subdomainFalsy sub then .body f
  else match sub with
    | .absent => .body f
    | .present s =>
      match user_can_access db uid s with
      | none => .serverError
      | some true => .body f
      | some false => .denialRedirectHome

/-- An authenticated tenant that does not own the requested subdomain is
denied with the uniform flash-and-redirect outcome. -/
theorem authorized_denies_unowned (db : List UserRow) (uid : Nat) (u : UserRow)
    (s : String) (f : α) (hu : findUser db uid = some u)
    (hown : containsSubdomain u.containers s = false) (hs : s ≠ "") :
    authorizedOutcome db true uid (.present s) f = Outcome.denialRedirectHome := by
  simp only [authorizedOutcome, Bool.not_true, subdomainFalsy, user_can_access, hu]
  rw [if_neg (by simp), if_neg (by simp [hs]), hown]

/-- C1: for an authenticated tenant and a subdomain the tenant does not
own, every guarded operation (any wrapped view body `f`, `g`) produces the
same denial outcome whether the subdomain belongs to another tenant
(registry `db1`) or exists in no registry row at all (registry `db2`): both
runs end in the uniform flash-and-redirect denial, so no guarded
operation's result distinguishes the two cases. -/
theorem no_existence_leakage (db1 db2 : List UserRow) (uid : Nat)
    (u1 u2 : UserRow) (s : String) (f g : α)
    (h1 : findUser db1 uid = some u1)
    (ho1 : containsSubdomain u1.containers s = false)
    (h2 : findUser db2 uid = some u2)
    (ho2 : containsSubdomain u2.containers s = false)
    (hs : s ≠ "") :
    authorizedOutcome db1 true uid (.present s) f =
      authorizedOutcome db2 true uid (.present s) g ∧
    authorizedOutcome db1 true uid (.present s) f =
      Outcome.denialRedirectHome := by
  rw [authorized_denies_unowned db1 uid u1 s f h1 ho1 hs,
      authorized_denies_unowned db2 uid u2 s g h2 ho2 hs]
  exact ⟨rfl, rfl⟩

/-- Witness for C1: tenant 1 owns nothing; registry `db1` has subdomain
"foo" owned by tenant 2, registry `db2` has no "foo" at all; tenant 1's
request is denied identically in both. -/
theorem no_existence_leakage_witness :
    authorizedOutcome [⟨1, [], 1⟩, ⟨2, [⟨"foo", 25575, "aa"⟩], 1⟩] true 1
        (.present "foo") (0 : Nat) =
      authorizedOutcome [⟨1, [], 1⟩] true 1 (.present "foo") (1 : Nat) ∧
    authorizedOutcome [⟨1, [], 1⟩, ⟨2, [⟨"foo", 25575, "aa"⟩], 1⟩] true 1
        (.present "foo") (0 : Nat) = Outcome.denialRedirectHome :=
  no_existence_leakage [⟨1, [], 1⟩, ⟨2, [⟨"foo", 25575, "aa"⟩], 1⟩]
    [⟨1, [], 1⟩] 1 ⟨1, [], 1⟩ ⟨1, [], 1⟩ "foo" 0 1
    (by rfl) (by rfl) (by rfl) (by rfl) (by decide)

/-- C9: a route invoked without a subdomain keyword passes the gate for
any authenticated user, and the registry is never consulted: the outcome
is the view body, uniformly in `db`. -/
theorem authorized_skips_ownership_without_subdomain (db : List UserRow)
    (uid : Nat) (f : α) :
    authorizedOutcome db true uid .absent f = Outcome.body f := rfl

/-- A `{status, show, color}` dictionary as emitted to clients. -/
structure StateTuple where
  status : String
  «show» : String
  color : String
deriving Repr, DecidableEq

/-- The module-level `states` table (src/app.py lines 47-50), keyed by the
raw runtime event action, consulted by the broadcast bridge. -/
def states : List StateTuple :=
  [⟨"start", "Running", "bg-green-500"⟩,
   ⟨"die", "Stopped", "bg-red-500"⟩,
   ⟨"restart", "Running", "bg-green-500"⟩,
   ⟨"stop", "Stopping", "bg-orange-500"⟩]

/-- A decoded runtime event as the bridge reads it: `event.get('Type')`,
`event.get('Action')`, and the affected container's identity (which the
loop body never reads).  `none` models an absent key. -/
structure Event where
  etype : Option String
  action : Option String
  id : Option String
deriving Repr, DecidableEq

/-- The action allowlist `['start', 'stop', 'die', 'restart']` of
src/app.py line 71, as the values `event.get('Action')` is tested
against. -/
def lifecycleActions : List (Option String) :=
  [some "start", some "stop", some "die", some "restart"]

/-- One iteration of the `for event in deploy.client.events(decode=True)`
loop body of `monitor_events` (src/app.py lines 68-74): the state tuples
emitted to the subscriber's room for this event, in emission order. -/
def monitorStep (e : Event) : List StateTuple :=
  if e.etype == some "container" then
    if e.action ∈ lifecycleActions then
      states.filter (fun st => some st.status == e.action)
    else []
  else []

/-- The bridge's loop over a finite prefix of the runtime's global event
stream: all tuples emitted, in order. -/
def monitor_events (events : List Event) : List StateTuple :=
  events.flatMap monitorStep

/-- The publication condition: type `"container"` and action in the
allowlist. -/
def eventMatches (e : Event) : Bool :=
  e.etype == some "container" && decide (e.action ∈ lifecycleActions)

/-- The unique `states` entry whose key equals the event action (junk
default, never reached for allowlisted actions). -/
def actionTuple (a : Option String) : StateTuple :=
  (states.find? (fun st => some st.status == a)).getD ⟨"", "", ""⟩

theorem monitorStep_eq (e : Event) :
    monitorStep e = if eventMatches e then [actionTuple e.action] else [] := by
  obtain ⟨t, a, i⟩ := e
  simp only [monitorStep, eventMatches]
  by_cases ht : (t == some "container") = true
  · rw [if_pos ht]
    by_cases ha : a ∈ lifecycleActions
    · rw [if_pos ha]
      simp only [lifecycleActions, List.mem_cons, List.not_mem_nil,
        or_false] at ha
      rcases ha with h | h | h | h <;> subst h <;>
        simp [ht, actionTuple, states, lifecycleActions]
    · rw [if_neg ha]
      simp [ht, ha]
  · simp [ht]

/-- C6: the bridge publishes a tuple for an event if and only if the
event's type is `"container"` and its action is in
{start, stop, die, restart}; the published stream is exactly the matching
events, in emission order, one tuple each (no reordering, no
deduplication); and the emitted tuples are independent of which container
— hence which tenant — the event concerns. -/
theorem monitor_publishes_iff_matching (events : List Event) :
    monitor_events events =
      (events.filter eventMatches).map (fun e => actionTuple e.action) ∧
    (∀ e : Event, monitorStep e ≠ [] ↔ eventMatches e = true) ∧
    (∀ (t a i i' : Option String), monitorStep ⟨t, a, i⟩ = monitorStep ⟨t, a, i'⟩) := by
  refine ⟨?_, ?_, fun t a i i' => rfl⟩
  · induction events with
    | nil => rfl
    | cons e rest ih =>
      simp only [monitor_events, List.flatMap_cons, List.filter_cons] at *
      rw [monitorStep_eq e]
      cases h : eventMatches e <;> simp [h, ih]
  · intro e
    rw [monitorStep_eq e]
    cases h : eventMatches e <;> simp [h]

/-- C2 counterexample: on a `"die"` container event the bridge emits the
tuple `{status := "die", show := "Stopped", color := "bg-red-500"}` — its
status key is the raw action `"die"`, not `"exited"` as the claim states
(no emitted tuple carries the `"exited"` key). -/
theorem monitor_die_not_exited_counterexample :
    monitorStep ⟨some "container", some "die", none⟩ =
      [⟨"die", "Stopped", "bg-red-500"⟩] ∧
    ∀ st ∈ monitorStep ⟨some "container", some "die", none⟩,
      st.status ≠ "exited" := by decide

/-- C2 amended: the bridge's mapping keeps the raw event action as the
status key and uses the module-level display table: `"die"` maps to
{"die", "Stopped", red}, `"start"` to {"start", "Running", green},
`"restart"` to {"restart", "Running", green}, and `"stop"` to
{"stop", "Stopping", orange}.  The colors are as the claim says; the
status keys are the action names rather than the canonical
"exited"/"running"/"restarting" keys, and "stop"'s label is "Stopping". -/
theorem monitor_action_mapping :
    monitorStep ⟨some "container", some "die", none⟩ =
      [⟨"die", "Stopped", "bg-red-500"⟩] ∧
    monitorStep ⟨some "container", some "start", none⟩ =
      [⟨"start", "Running", "bg-green-500"⟩] ∧
    monitorStep ⟨some "container", some "restart", none⟩ =
      [⟨"restart", "Running", "bg-green-500"⟩] ∧
    monitorStep ⟨some "container", some "stop", none⟩ =
      [⟨"stop", "Stopping", "bg-orange-500"⟩] := by decide

namespace GetContainerStatus

/-- The local `states` table of `get_container_status` (src/app.py lines
106-108), keyed by the canonical runtime status strings. -/
def states : List StateTuple :=
  [⟨"running", "Running", "bg-green-500"⟩,
   ⟨"exited", "Stopped", "bg-red-500"⟩,
   ⟨"restarting", "Restarting", "bg-orange-500"⟩]

end GetContainerStatus

/-- `get_container_status(subdomain)` (src/app.py lines 105-120).
`container` is `get_container`'s answer (src/app.py lines 98-103): the
runtime's first container for the subdomain, `none` for the falsy `False`
when the runtime has no record.  `runtimeStatus` is
`deploy.get_status(container.id)`.  Returns the matching canonical tuple,
or `none` for the `False` returned both when the container is absent and
when the runtime state matches no table entry. -/
def get_container_status (container : Option ContainerRow)
    (runtimeStatus : String) : Option StateTuple :=
  match container with
  | none => none
  | some _ => GetContainerStatus.states.find? (fun st => st.status == runtimeStatus)

/-- An HTTP response of one of the lifecycle routes. -/
inductive RouteResponse where
  | json (st : StateTuple)
  | jsonBool (b : Bool)
  | unauthorized401
  | serverError500
deriving Repr, DecidableEq

/-- The fallback dictionary of src/app.py line 311. -/
def unknownTuple : StateTuple := ⟨"unknown", "Unknown", "bg-gray-500"⟩

/-- The `get_status` route body (src/app.py lines 300-313), after the
`authorized` gate: on GET, jsonify the matched state, or the unknown
fallback when `get_container_status` returned falsy `False`; otherwise
401. -/
def get_status (method : String) (container : Option ContainerRow)
    (runtimeStatus : String) : RouteResponse :=
  if method == "GET" then
    match get_container_status container runtimeStatus with
    | some st => .json st
    | none => .json unknownTuple
  else .unauthorized401

/-- The canonical three-state model's status keys. -/
def runtimeStatusKeys : List String := ["running", "exited", "restarting"]

/-- C4: the status-only query is total: when the runtime has no record of
the instance, or reports a state outside the canonical three-state model,
the route answers the "unknown" fallback tuple rather than an error;
otherwise it answers the canonical tuple for the runtime state. -/
theorem get_status_query_total (c : Option ContainerRow) (s : String) :
    ((c = none ∨ s ∉ runtimeStatusKeys) →
      get_status "GET" c s = RouteResponse.json unknownTuple) ∧
    (∀ hc : ContainerRow, c = some hc → s ∈ runtimeStatusKeys →
      ∃ st ∈ GetContainerStatus.states,
        st.status = s ∧ get_status "GET" c s = RouteResponse.json st) := by
  constructor
  · rintro (rfl | hs)
    · rfl
    · cases c with
      | none => rfl
      | some hc =>
        simp only [runtimeStatusKeys, List.mem_cons, List.not_mem_nil,
          or_false, not_or] at hs
        obtain ⟨h1, h2, h3⟩ := hs
        have e1 : (("running" : String) == s) = false :=
          beq_eq_false_iff_ne.mpr (Ne.symm h1)
        have e2 : (("exited" : String) == s) = false :=
          beq_eq_false_iff_ne.mpr (Ne.symm h2)
        have e3 : (("restarting" : String) == s) = false :=
          beq_eq_false_iff_ne.mpr (Ne.symm h3)
        simp [get_status, get_container_status, GetContainerStatus.states,
          List.find?, e1, e2, e3]
  · rintro hc rfl hs
    simp only [runtimeStatusKeys, List.mem_cons, List.not_mem_nil,
      or_false] at hs
    rcases hs with rfl | rfl | rfl
    · exact ⟨⟨"running", "Running", "bg-green-500"⟩, by decide, rfl, rfl⟩
    · exact ⟨⟨"exited", "Stopped", "bg-red-500"⟩, by decide, rfl, rfl⟩
    · exact ⟨⟨"restarting", "Restarting", "bg-orange-500"⟩, by decide, rfl, rfl⟩

/-- Witness for C4: a subdomain the runtime has never heard of answers the
unknown fallback on a GET. -/
theorem get_status_query_total_witness :
    get_status "GET" none "gone" = RouteResponse.json unknownTuple :=
  (get_status_query_total none "gone").1 (Or.inl rfl)

/-- `reached_creation_limit(id)` (src/app.py lines 89-96): `True` exactly
when the user row exists and its owned-container count is at least its
configured limit; `False` when the user row is missing (the `if results:`
guard). -/
def reached_creation_limit (db : List UserRow) (uid : Nat) : Bool :=
  match findUser db uid with
  | none => false
  | some u => decide (u.container_limit ≤ u.containers.length)

/-- The outcome of the create branch of `home`. -/
inductive CreateOutcome where
  | quotaDenied
  | created
  | createFailed (msg : String)
deriving Repr, DecidableEq

/-- The create branch of the `home` route (src/app.py lines 214-225): on a
valid submit, flash the quota message and redirect when
`reached_creation_limit`; otherwise call `deploy.create_container`,
flashing success or the caught exception.  `deployResult` is the runtime
call's outcome. -/
def homeCreate (db : List UserRow) (uid : Nat)
    (deployResult : Except String Unit) : CreateOutcome :=
  if reached_creation_limit db uid then .quotaDenied
  else
    match deployResult with
    | .ok _ => .created
    | .error e => .createFailed e

/-- C3: for a tenant with quota N: owning exactly N instances refuses
create with the quota outcome; owning fewer than N passes the quota gate;
and `reached_creation_limit` is true exactly when the owned-instance
count is at least the tenant's container limit. -/
theorem quota_gate_exact (db : List UserRow) (uid : Nat) (u : UserRow)
    (dr : Except String Unit) (hu : findUser db uid = some u) :
    (reached_creation_limit db uid = true ↔
      u.container_limit ≤ u.containers.length) ∧
    (u.containers.length = u.container_limit →
      homeCreate db uid dr = CreateOutcome.quotaDenied) ∧
    (u.containers.length < u.container_limit →
      homeCreate db uid dr ≠ CreateOutcome.quotaDenied) := by
  have hiff : reached_creation_limit db uid = true ↔
      u.container_limit ≤ u.containers.length := by
    simp [reached_creation_limit, hu]
  refine ⟨hiff, fun heq => ?_, fun hlt => ?_⟩
  · unfold homeCreate
    rw [if_pos (hiff.mpr (le_of_eq heq.symm))]
  · unfold homeCreate
    rw [if_neg (by rw [hiff]; omega)]
    cases dr <;> simp

/-- Witness for C3: tenant 1 with quota 2 owning two instances is
quota-denied; its count being below 2 would pass. -/
theorem quota_gate_exact_witness :
    homeCreate [⟨1, [⟨"a", 25575, "ua"⟩, ⟨"b", 25576, "ub"⟩], 2⟩] 1
      (Except.ok ()) = CreateOutcome.quotaDenied :=
  (quota_gate_exact [⟨1, [⟨"a", 25575, "ua"⟩, ⟨"b", 25576, "ub"⟩], 2⟩] 1
    ⟨1, [⟨"a", 25575, "ua"⟩, ⟨"b", 25576, "ub"⟩], 2⟩ (Except.ok ())
    (by rfl)).2.1 rfl

/-- The merge loop of the `edit` route (src/app.py lines 254-259): for
each key of the properties document (`props.items()`, in file order), if
the form object has a field named `key.replace("-", "_")`, overwrite the
document's value for that key with the field's submitted data; a
`getattr` miss (unrecognized key) is swallowed by the bare `except` and
the entry is left alone.  `form name` is `none` when the form has no
field of that name, else `some` of the field's data. -/
def merge_update (props : List (String × String))
    (form : String → Option String) : List (String × String) :=
  props.map (fun kv =>
    match form ((kv.1).replace "-" "_") with
    | some v => (kv.1, v)
    | none => kv)

/-- C7: the merge rewrites each recognized entry (its on-disk key,
hyphens translated to underscores, names a form field) to the submitted
value and leaves every other entry exactly as it was, pointwise and in
order; merging against a form with no matching fields leaves the whole
document unchanged. -/
theorem merge_update_preserves_unrecognized
    (props : List (String × String)) (form : String → Option String) :
    merge_update props (fun _ => none) = props ∧
    List.Forall₂ (fun a b =>
      (form ((a.1).replace "-" "_") = none → b = a) ∧
      (∀ v', form ((a.1).replace "-" "_") = some v' → b = (a.1, v')))
      props (merge_update props form) := by
  constructor
  · simp [merge_update]
  · induction props with
    | nil => exact List.Forall₂.nil
    | cons kv rest ih =>
      simp only [merge_update, List.map_cons] at ih ⊢
      refine List.Forall₂.cons ?_ ih
      cases h : form ((kv.1).replace "-" "_") with
      | none => exact ⟨fun _ => rfl, fun v' hv' => by simp at hv'⟩
      | some v =>
        refine ⟨fun hn => by simp at hn, fun v' hv' => ?_⟩
        rw [Option.some_inj] at hv'
        exact hv' ▸ rfl

/-- Witness for C7: a document with a recognized and an unrecognized key:
the empty update leaves it unchanged. -/
theorem merge_update_preserves_unrecognized_witness :
    merge_update [("max-players", "20"), ("weird-key", "keepme")]
      (fun _ => none) = [("max-players", "20"), ("weird-key", "keepme")] :=
  (merge_update_preserves_unrecognized
    [("max-players", "20"), ("weird-key", "keepme")] (fun _ => none)).1

/-- Result of one RCON invocation as it travels through the one-shot
queue. -/
inductive RconResult where
  | response (text : String)
  | connectionRefused
deriving Repr, DecidableEq

/-- Modelled from the spec: `rcon.command` lives in rcon.py, which is not
under src/.  Per §4.2 of the spec, each invocation runs in a freshly
spawned process that opens a connection to address:port, authenticates,
sends the single command, receives the single response, closes, and
communicates the outcome through the one-shot channel: the response
text, or the `ConnectionRefused` failure when the instance is not
reachable.  The child puts exactly one value on the queue per
invocation; `queue` is the queue's contents when the child starts and
`net address port cmd` is the network (`none` when the endpoint is
unreachable, else the instance's single response to `cmd`). -/
def rcon_command (net : String → Nat → String → Option String)
    (queue : List RconResult) (address : String) (port : Nat)
    (cmd : String) : List RconResult :=
  match net address port cmd with
  | none => queue ++ [RconResult.connectionRefused]
  | some resp => queue ++ [RconResult.response resp]

/-- `queue.get()` on a multiprocessing queue after the child was joined:
the first value put, `none` when nothing was ever put (the call would
block forever). -/
def queueGet (q : List RconResult) : Option RconResult := q.head?

/-- `send_rcon_command(subdomain, command)` (src/app.py lines 122-136):
resolve the container ip and rcon port, make a fresh empty queue, start
the child process running `rcon.command`, join it, and read one value
from the queue.  `address` and `port` stand for the resolved
`container_ip` and `rcon_port`. -/
def send_rcon_command (net : String → Nat → String → Option String)
    (address : String) (port : Nat) (cmd : String) : Option RconResult :=
  queueGet (rcon_command net [] address port cmd)

/-- C5: each RCON invocation puts exactly one value on the one-shot
queue, and the caller receives exactly that value (in particular the
`queue.get()` never faces an empty queue, so the call terminates); a call
against an unreachable address terminates with the ConnectionRefused
failure, and a reachable one with the single response. -/
theorem rcon_one_command_one_response
    (net : String → Nat → String → Option String) (a : String) (p : Nat)
    (c : String) :
    (∃ r, rcon_command net [] a p c = [r] ∧
      send_rcon_command net a p c = some r) ∧
    (net a p c = none →
      send_rcon_command net a p c = some RconResult.connectionRefused) ∧
    (∀ t, net a p c = some t →
      send_rcon_command net a p c = some (RconResult.response t)) := by
  refine ⟨?_, fun h => ?_, fun t h => ?_⟩
  · cases h : net a p c <;>
      simp [rcon_command, send_rcon_command, queueGet, h]
  · simp [rcon_command, send_rcon_command, queueGet, h]
  · simp [rcon_command, send_rcon_command, queueGet, h]

/-- Witness for C5: against a network where the endpoint is unreachable,
the call returns the ConnectionRefused failure. -/
theorem rcon_one_command_one_response_witness :
    send_rcon_command (fun _ _ _ => none) "172.17.0.2" 25575 "list" =
      some RconResult.connectionRefused :=
  (rcon_one_command_one_response (fun _ _ _ => none) "172.17.0.2" 25575
    "list").2.1 rfl

theorem authorized_allows_owner (db : List UserRow) (uid : Nat) (u : UserRow)
    (s : String) (f : α) (hu : findUser db uid = some u)
    (hown : containsSubdomain u.containers s = true) (hs : s ≠ "") :
    authorizedOutcome db true uid (.present s) f = Outcome.body f := by
  simp only [authorizedOutcome, Bool.not_true, subdomainFalsy, user_can_access, hu]
  rw [if_neg (by simp), if_neg (by simp [hs]), hown]

/-- One completed run of a task body: the value it returned or the
uncaught exception that ended it, plus the logger lines it emitted. -/
structure TaskRun where
  result : Except String String
  logs : List String
deriving Repr

/-- `async_restart(subdomain)` (src/app.py lines 315-319): fetch the
container by subdomain with `get_container`, call `.restart()` on it, log
a debug line, return a message.  When `get_container` returns the falsy
`False` (`container` is `none` here), `False.restart()` raises
`AttributeError` before any logging; when the runtime's restart call
itself raises (`restartCall` is an error), the exception escapes before
the debug log line, so the log stays empty on every failure path. -/
def async_restart (container : Option ContainerRow)
    (restartCall : Except String Unit) (subdomain : String) : TaskRun :=
  match container with
  | none => ⟨.error "AttributeError", []⟩
  | some _ =>
    match restartCall with
    | .error e => ⟨.error e, []⟩
    | .ok _ =>
      ⟨.ok ("Container " ++ subdomain ++ " restarted."),
       ["Container " ++ subdomain ++ " restarted."]⟩

/-- The pending-task queue of the module-level two-worker
`ThreadPoolExecutor` (src/app.py line 41). -/
structure ExecutorState where
  pending : List TaskRun
deriving Repr

/-- `executor.submit(...)`: enqueue the task once and return at once; the
Future it returns is discarded by every caller in src/app.py. -/
def submit (st : ExecutorState) (t : TaskRun) : ExecutorState :=
  ⟨st.pending ++ [t]⟩

/-- What a pool worker does with one dequeued task (stdlib
`ThreadPoolExecutor` semantics): run it and set any exception on the
Future.  Since every submitter discards its Future, a stored exception is
re-raised nowhere — the first component, the exception reaching the
submitting request handler, is always `none` — and the only log output is
whatever the task body itself wrote. -/
def runPendingTask (t : TaskRun) : Option String × List String :=
  (none, t.logs)

/-- The `restart` route body (src/app.py lines 321-332): on GET, submit
`async_restart` to the pool and immediately answer the fixed restarting
tuple; otherwise 401. -/
def restart (method : String) (st : ExecutorState) (task : TaskRun) :
    RouteResponse × ExecutorState :=
  if method == "GET" then
    (.json ⟨"restarting", "Restarting", "bg-orange-500"⟩, submit st task)
  else (.unauthorized401, st)

/-- The `shutdown` route body (src/app.py lines 334-344): on GET, call
`.kill()` on `get_container(subdomain)` and answer `jsonify(True)`; a
falsy `False` container makes `False.kill()` raise (500); otherwise
401. -/
def shutdown (method : String) (container : Option ContainerRow) :
    RouteResponse :=
  if method == "GET" then
    match container with
    | none => .serverError500
    | some _ => .jsonBool true
  else .unauthorized401

/-- The `start` route body (src/app.py lines 346-356): on GET, call
`.start()` on `get_container(subdomain)` and answer `jsonify(True)`;
otherwise 401. -/
def start (method : String) (container : Option ContainerRow) :
    RouteResponse :=
  if method == "GET" then
    match container with
    | none => .serverError500
    | some _ => .jsonBool true
  else .unauthorized401

/-- C8 counterexample: a submitted restart whose container no longer
resolves fails with `AttributeError` and emits no log line at all — the
failure is not logged, because the only log statement of the task body
sits after the restart call. -/
theorem async_restart_failure_unlogged :
    (async_restart none (Except.ok ()) "foo").result =
      Except.error "AttributeError" ∧
    (async_restart none (Except.ok ()) "foo").logs = [] := ⟨rfl, rfl⟩

/-- C8 amended: submitting a restart enqueues exactly one run of the task
and the route's response is a fixed tuple independent of the task's
outcome (submit returns immediately); a failure raised inside the task is
captured into the discarded Future — never propagated to the submitter —
but it produces no log output. -/
theorem executor_fire_and_forget (c : Option ContainerRow)
    (rc : Except String Unit) (s : String) (est : ExecutorState) :
    (restart "GET" est (async_restart c rc s)).1 =
      RouteResponse.json ⟨"restarting", "Restarting", "bg-orange-500"⟩ ∧
    ((restart "GET" est (async_restart c rc s)).2).pending =
      est.pending ++ [async_restart c rc s] ∧
    (runPendingTask (async_restart c rc s)).1 = none ∧
    (∀ e, (async_restart c rc s).result = Except.error e →
      (runPendingTask (async_restart c rc s)).2 = []) := by
  refine ⟨rfl, rfl, rfl, fun e he => ?_⟩
  cases c with
  | none => rfl
  | some hc =>
    cases rc with
    | error msg => rfl
    | ok u => exact absurd he (by simp [async_restart])

/-- Witness for C8 (amended): the failing restart of the counterexample
input propagates nothing and logs nothing. -/
theorem executor_fire_and_forget_witness :
    (runPendingTask (async_restart none (Except.ok ()) "foo")).2 = [] :=
  (executor_fire_and_forget none (Except.ok ()) "foo" ⟨[]⟩).2.2.2
    "AttributeError" rfl

/-- C10: for the get_status, restart, shutdown and start routes, a POST
issued by the authenticated owner of the subdomain still answers the 401
"Unauthorized" outcome; only a GET performs the operation (no GET ever
answers 401). -/
theorem post_requests_unauthorized (db : List UserRow) (uid : Nat)
    (u : UserRow) (s : String) (c : Option ContainerRow) (rs : String)
    (est : ExecutorState) (t : TaskRun) (hu : findUser db uid = some u)
    (hown : containsSubdomain u.containers s = true) (hs : s ≠ "") :
    authorizedOutcome db true uid (.present s) (get_status "POST" c rs) =
      Outcome.body RouteResponse.unauthorized401 ∧
    authorizedOutcome db true uid (.present s) (restart "POST" est t).1 =
      Outcome.body RouteResponse.unauthorized401 ∧
    authorizedOutcome db true uid (.present s) (shutdown "POST" c) =
      Outcome.body RouteResponse.unauthorized401 ∧
    authorizedOutcome db true uid (.present s) (start "POST" c) =
      Outcome.body RouteResponse.unauthorized401 ∧
    get_status "GET" c rs ≠ RouteResponse.unauthorized401 ∧
    (restart "GET" est t).1 ≠ RouteResponse.unauthorized401 ∧
    shutdown "GET" c ≠ RouteResponse.unauthorized401 ∧
    start "GET" c ≠ RouteResponse.unauthorized401 := by
  refine ⟨authorized_allows_owner db uid u s _ hu hown hs,
    authorized_allows_owner db uid u s _ hu hown hs,
    authorized_allows_owner db uid u s _ hu hown hs,
    authorized_allows_owner db uid u s _ hu hown hs, ?_, by simp [restart],
    ?_, ?_⟩
  · cases hgc : get_container_status c rs <;> simp [get_status, hgc]
  · cases c <;> simp [shutdown]
  · cases c <;> simp [start]

/-- Witness for C10: the owner of "foo" POSTs to each route and gets 401
every time. -/
theorem post_requests_unauthorized_witness :
    authorizedOutcome [⟨1, [⟨"foo", 25575, "ua"⟩], 1⟩] true 1
        (.present "foo") (get_status "POST" none "running") =
      Outcome.body RouteResponse.unauthorized401 :=
  (post_requests_unauthorized [⟨1, [⟨"foo", 25575, "ua"⟩], 1⟩] 1
    ⟨1, [⟨"foo", 25575, "ua"⟩], 1⟩ "foo" none "running" ⟨[]⟩
    ⟨Except.ok "", []⟩ (by rfl) (by rfl) (by decide)).1

end Dudebro
